import Mathlib

/-!
Verification development for a single-node log-structured key-value store
written in Go (memdb.go, the WAL module, the SST/flush/compaction module
and main.go).  The definitions below are a shallow embedding of the Go
source: byte strings are `List Nat` (each element a byte value), machine
integers are `Nat` with explicit truncation where the source truncates,
file contents are byte lists, the file system is an association list from
file names to contents, and fallible operations return `Except`.
-/

set_option maxRecDepth 8000

namespace GoKV

/-- Operation tag from the WAL module: `Set` is the zero value 0,
`Delete` is 1 (Go: `const ( Set Operation = iota; Delete )`). -/
inductive Operation where
  | set : Operation
  | delete : Operation
deriving DecidableEq, Repr

/-- Byte written for an operation tag (`uint8(operation)`). -/
def Operation.toByte : Operation → Nat
  | .set => 0
  | .delete => 1

/-- KeyValue record from the source: `{Key []byte, Value []byte, Operation Operation}`.
A Go composite literal that omits `Operation` gets the zero value `Set`. -/
structure KeyValue where
  key : List Nat
  value : List Nat
  operation : Operation
deriving DecidableEq, Repr

instance : Inhabited KeyValue := ⟨⟨[], [], .set⟩⟩

/-- Error outcomes of the embedded operations, one constructor per distinct
error site of the source (the source uses `error` values / message strings). -/
inductive DbError where
  | ioError           -- an underlying file write failed
  | fileNotFound      -- os.Open failed in loadSSTFile / mergeSSTFiles
  | seekError         -- seeking the trailing checksum failed (file shorter than 4 bytes)
  | checksumMismatch  -- "SST file integrity check failed: checksums do not match"
  | keyDoesNotExist   -- Del: "key doesn't exist"
  | keyNotFound       -- Get: "key not found"
  | jsonError         -- json.Unmarshal failed on a line in mergeSSTFiles
deriving DecidableEq, Repr

/-- Little-endian 2-byte encoding of `uint16(n)` as written by binary.Write. -/
def u16le (n : Nat) : List Nat := [n % 256, n / 256 % 256]

/-- Little-endian 4-byte encoding of `uint32(n)` as written by binary.Write. -/
def u32le (n : Nat) : List Nat :=
  [n % 256, n / 256 % 256, n / 65536 % 256, n / 16777216 % 256]

/-- binary.LittleEndian.Uint32 of the first four bytes of a buffer
(missing bytes read as 0, matching a zero-initialized Go buffer). -/
def leU32 (bs : List Nat) : Nat :=
  bs.getD 0 0 + bs.getD 1 0 * 256 + bs.getD 2 0 * 65536 + bs.getD 3 0 * 16777216

/-- Reflected polynomial of CRC-32/IEEE, as used by hash/crc32.NewIEEE. -/
def crc32Poly : Nat := 0xEDB88320

/-- One bit step of the reflected CRC-32 computation. -/
def crc32Step (c : Nat) : Nat :=
  if c % 2 = 1 then Nat.xor (c / 2) crc32Poly else c / 2

/-- Fold one byte into a CRC-32 accumulator (eight bit steps). -/
def crc32Byte (c b : Nat) : Nat :=
  (List.range 8).foldl (fun a _ => crc32Step a) (Nat.xor c b)

/-- CRC-32/IEEE of a byte sequence (init 0xFFFFFFFF, final xor 0xFFFFFFFF),
the checksum computed by Go's hash/crc32 with the IEEE table. -/
def crc32 (bs : List Nat) : Nat :=
  Nat.xor (bs.foldl crc32Byte 0xFFFFFFFF) 0xFFFFFFFF

/-- calculateChecksum from the SST module: CRC-32/IEEE over the
concatenation of every entry's key bytes then value bytes, in list order. -/
def calculateChecksum (data : List KeyValue) : Nat :=
  crc32 (data.foldl (fun acc kv => acc ++ kv.key ++ kv.value) [])

/-- WriteAheadLog state.  `contents` are the bytes of the log file,
`watermark` the bookkeeping offset.  `writesFail` is the fault model for the
underlying file: when true, every `binary.Write`/`file.Write` to the log
fails (so the first write of a record fails and nothing is appended), which
is how an I/O failure surfaces to `AppendEntry` in the source. -/
structure WriteAheadLog where
  contents : List Nat
  watermark : Int
  writesFail : Bool
deriving DecidableEq, Repr

/-- Serialized WAL record as written by AppendEntry:
`op:u8, keyLen:u16-LE, key, valueLen:u16-LE, value` (lengths truncated to uint16). -/
def encodeWalRecord (op : Operation) (entry : KeyValue) : List Nat :=
  op.toByte :: (u16le entry.key.length ++ entry.key ++ u16le entry.value.length ++ entry.value)

/-- AppendEntry from the WAL module: serializes one record and appends it to
the log file; any underlying write failure is returned as an error and (in
the fault model) leaves the log unchanged. -/
def WriteAheadLog.AppendEntry (wal : WriteAheadLog) (op : Operation) (entry : KeyValue) :
    WriteAheadLog × Except DbError Unit :=
  if wal.writesFail then (wal, Except.error DbError.ioError)
  else ({ wal with contents := wal.contents ++ encodeWalRecord op entry }, Except.ok ())

/-- memDB state from memdb.go: the live entry list `data`, the WAL handle,
the `sstFileLoaded` flag and the (never written) `setData`/`deleteData`
slices.  The mutex and flush interval have no observable effect on the
sequential semantics modelled here. -/
structure memDB where
  data : List KeyValue
  wal : WriteAheadLog
  sstFileLoaded : Bool
  setData : List KeyValue
  deleteData : List KeyValue
deriving DecidableEq, Repr

/-- Linear scan of the live list with Go's `string(kv.Key) == string(key)`
comparison (byte equality); returns the value of the FIRST matching entry,
exactly as the `for ... range` loops in Get do. -/
def lookupKV : List KeyValue → List Nat → Option (List Nat)
  | [], _ => none
  | kv :: rest, key => if kv.key = key then some kv.value else lookupKV rest key

/-- Set from memdb.go: builds the entry, calls `mem.wal.AppendEntry(Set, entry)`
WITHOUT inspecting its error (the source discards the return value), appends
the entry to `mem.data`, and returns nil. -/
def memDB.Set (mem : memDB) (key value : List Nat) : memDB × Except DbError Unit :=
  let entry : KeyValue := ⟨key, value, .set⟩
  let wal' := (mem.wal.AppendEntry .set entry).1
  ({ mem with wal := wal', data := mem.data ++ [entry] }, Except.ok ())

/-- Helper for Del: remove the first entry whose key equals `key`, returning
the removed entry and the remaining list (`append(mem.data[:i], mem.data[i+1:]...)`). -/
def delFirst : List KeyValue → List Nat → Option (KeyValue × List KeyValue)
  | [], _ => none
  | kv :: rest, key =>
    if kv.key = key then some (kv, rest)
    else
      match delFirst rest key with
      | none => none
      | some (d, rest2) => some (d, kv :: rest2)

/-- Del from memdb.go: finds the first live entry with the key; if present,
appends a WAL Delete record carrying that entry (error again discarded),
removes it and returns its value; otherwise errors ("key doesn't exist"). -/
def memDB.Del (mem : memDB) (key : List Nat) : memDB × Except DbError (List Nat) :=
  match delFirst mem.data key with
  | none => (mem, Except.error DbError.keyDoesNotExist)
  | some (kv, rest) =>
    let wal' := (mem.wal.AppendEntry .delete kv).1
    ({ mem with wal := wal', data := rest }, Except.ok kv.value)

/-- Model of one `reader.Read(p)` with `len(p) = n` against a file whose
bytes are `bytes`, current offset `pos`.  The bufio reader in loadSSTFile
buffers the whole file on its first fill (the files in question are far
smaller than the 4096-byte buffer), so a read returns the available bytes
without error unless nothing remains; the `make([]byte, n)` destination is
zero-initialized, so a short read leaves trailing zero bytes, and the source
never checks the returned count.  A zero-length read succeeds trivially. -/
def readBuf (bytes : List Nat) (pos n : Nat) : Option (List Nat × Nat) :=
  if n = 0 then some ([], pos)
  else if bytes.length ≤ pos then none
  else some ((bytes.drop pos).take n ++ List.replicate (n - (bytes.length - pos)) 0,
             min (pos + n) bytes.length)

/-- The read loop of loadSSTFile, started at offset 0 of the file: read a
4-byte key length, `keyLen` key bytes, a 4-byte value length, `valueLen`
value bytes; append `KeyValue{Key, Value}` (Operation zero value = Set);
break out of the loop on the first read error.  `fuel` bounds the
iterations; each iteration advances the offset by at least one byte, so
`bytes.length + 1` fuel is never exhausted. -/
def parseLoop (bytes : List Nat) : Nat → Nat → List KeyValue → List KeyValue
  | 0, _, acc => acc
  | fuel + 1, pos, acc =>
    match readBuf bytes pos 4 with
    | none => acc
    | some (klb, p1) =>
      match readBuf bytes p1 (leU32 klb) with
      | none => acc
      | some (keyData, p2) =>
        match readBuf bytes p2 4 with
        | none => acc
        | some (vlb, p3) =>
          match readBuf bytes p3 (leU32 vlb) with
          | none => acc
          | some (valueData, p4) =>
            parseLoop bytes fuel p4 (acc ++ [⟨keyData, valueData, .set⟩])

/-- Entries appended to `mem.data` by loadSSTFile's read loop for a file
with the given bytes. -/
def parseEntries (bytes : List Nat) : List KeyValue :=
  parseLoop bytes (bytes.length + 1) 0 []

/-- loadSSTFile from memdb.go.  `file` is the content of the file named
`file_<now>.sst` (`none` when os.Open fails because no such file exists).
The source: returns nil at once if already loaded; reads the stored checksum
from the LAST four bytes of the file; parses key/value pairs from offset 0
(the header written by createSSTFile is NOT skipped), appending them to
`mem.data`; recomputes the checksum over ALL of `mem.data` (pre-existing
entries included) and errors on mismatch — the appended entries are kept
even on the error path, and `sstFileLoaded` is set only on success. -/
def memDB.loadSSTFile (mem : memDB) (file : Option (List Nat)) :
    memDB × Except DbError Unit :=
  if mem.sstFileLoaded then (mem, Except.ok ())
  else
    match file with
    | none => (mem, Except.error DbError.fileNotFound)
    | some bytes =>
      if bytes.length < 4 then (mem, Except.error DbError.seekError)
      else
        let storedChecksum := leU32 (bytes.drop (bytes.length - 4))
        let data2 := mem.data ++ parseEntries bytes
        if calculateChecksum data2 = storedChecksum then
          ({ mem with data := data2, sstFileLoaded := true }, Except.ok ())
        else
          ({ mem with data := data2 }, Except.error DbError.checksumMismatch)

/-- Get from memdb.go.  Scans the live list for the first match; on a miss,
if no SST file has been loaded yet, calls loadSSTFile on the file named
after the CURRENT wall-clock second (content `file`), propagating its error;
finally scans the (possibly grown) live list again and errors with
"key not found" on a second miss.  Returns the post-call state alongside
the result, since loadSSTFile mutates `mem`. -/
def memDB.Get (mem : memDB) (file : Option (List Nat)) (key : List Nat) :
    memDB × Except DbError (List Nat) :=
  match lookupKV mem.data key with
  | some v => (mem, Except.ok v)
  | none =>
    if mem.sstFileLoaded then
      match lookupKV mem.data key with
      | some v => (mem, Except.ok v)
      | none => (mem, Except.error DbError.keyNotFound)
    else
      match mem.loadSSTFile file with
      | (mem1, Except.error e) => (mem1, Except.error e)
      | (mem1, Except.ok ()) =>
        match lookupKV mem1.data key with
        | some v => (mem1, Except.ok v)
        | none => (mem1, Except.error DbError.keyNotFound)

/-- GetAll from memdb.go: returns `mem.data` as-is; the error is always nil. -/
def memDB.GetAll (mem : memDB) : List KeyValue × Except DbError Unit :=
  (mem.data, Except.ok ())

/-- Go `string(a) < string(b)` on byte strings: lexicographic byte order,
the comparator passed to sort.Slice in createSSTFile. -/
def keyLt : List Nat → List Nat → Bool
  | [], [] => false
  | [], _ :: _ => true
  | _ :: _, [] => false
  | x :: xs, y :: ys => if x < y then true else if y < x then false else keyLt xs ys

/-- Insert one entry into a list already sorted by `keyLt` on keys. -/
def insertSorted (kv : KeyValue) : List KeyValue → List KeyValue
  | [] => [kv]
  | x :: xs => if keyLt x.key kv.key then x :: insertSorted kv xs else kv :: x :: xs

/-- The sort.Slice call of createSSTFile (insertion sort; sort.Slice is not
stable, but for entry lists with pairwise distinct keys — the only ones the
theorems below feed it — every sort by this comparator yields the same list). -/
def sortByKey (l : List KeyValue) : List KeyValue := l.foldr insertSorted []

/-- Constants of the SST module. -/
def magicNumber : Nat := 0x12345678

/-- SST format version constant. -/
def version : Nat := 1

/-- checksumOffset constant: byte offset the checksum is written at. -/
def checksumOffset : Nat := 14

/-- Overwrite `bs` into `file` starting at byte offset `off` (the effect of
file.Seek followed by a write: bytes before `off` kept, the overlapped range
replaced, the tail beyond the written range kept, the file extended — with
zero padding for any gap — when the write passes the old end). -/
def writeAt (file : List Nat) (off : Nat) (bs : List Nat) : List Nat :=
  file.take off ++ List.replicate (off - file.length) 0 ++ bs ++ file.drop (off + bs.length)

/-- Bytes emitted by `gzWriter.Close()` for a gzip writer that was created on
the file but never written to: the 10-byte gzip header (IDs 0x1f 0x8b, CM=8,
FLG=0, MTIME=0, XFL=0, OS=255), the 2-byte empty final deflate block
0x03 0x00, and the 8-byte trailer (CRC32 and ISIZE of the empty input, both
0).  createSSTFile creates such a writer and its deferred Close runs after
the checksum write, so these 20 bytes land at file offset 18.  None of the
theorems below depend on the individual byte values, only on the length. -/
def gzipCloseBytes : List Nat :=
  [31, 139, 8, 0, 0, 0, 0, 0, 0, 255, 3, 0, 0, 0, 0, 0, 0, 0, 0, 0]

/-- Byte encoding of one SST entry: `keyLen:u32-LE, key, valueLen:u32-LE, value`. -/
def encodeEntry (kv : KeyValue) : List Nat :=
  u32le kv.key.length ++ kv.key ++ u32le kv.value.length ++ kv.value

/-- createSSTFile from the SST module.  Returns the new state and the bytes
of the created file (`none` when `mem.data` is empty and no file is made).
The source: sorts `mem.data` ascending by key; writes the header
`magic:u32, version:u16, entryCount:u32, smallestKeyLen:u32, largestKeyLen:u32`
followed by THREE u32 placeholder zeros; writes each entry; seeks back to
checksumOffset = 14 and writes the CRC-32 of the (sorted) data there —
overwriting the largestKeyLen field, not a checksum slot, and leaving the
file cursor at 18; clears `mem.data`.  On return the deferred
`gzWriter.Close()` writes `gzipCloseBytes` at offset 18, before the deferred
`file.Close()`. -/
def memDB.createSSTFile (mem : memDB) : memDB × Option (List Nat) :=
  if mem.data.isEmpty then (mem, none)
  else
    let sorted := sortByKey mem.data
    let smallestKey := (sorted.headD default).key
    let largestKey := (sorted.getLastD default).key
    let header := u32le magicNumber ++ u16le version ++ u32le sorted.length ++
        u32le smallestKey.length ++ u32le largestKey.length ++
        u32le 0 ++ u32le 0 ++ u32le 0
    let body := sorted.foldl (fun acc kv => acc ++ encodeEntry kv) []
    let withChecksum := writeAt (header ++ body) checksumOffset (u32le (calculateChecksum sorted))
    let final := writeAt withChecksum 18 gzipCloseBytes
    ({ mem with data := [] }, some final)

/-- File system: association list from file names to contents, standing for
the directory the store writes segments into. -/
abbrev FS := List (String × List Nat)

/-- os.Open / reading an existing file's bytes. -/
def fsLookup : FS → String → Option (List Nat)
  | [], _ => none
  | (n, c) :: rest, name => if n = name then some c else fsLookup rest name

/-- os.Create semantics: truncate an existing file of that name or create it;
a later full-content write is modelled by calling this again with the bytes. -/
def fsSet : FS → String → List Nat → FS
  | [], name, c => [(name, c)]
  | (n, c0) :: rest, name, c =>
    if n = name then (n, c) :: rest else (n, c0) :: fsSet rest name c

/-- os.Remove semantics. -/
def fsRemove : FS → String → FS
  | [], _ => []
  | (n, c) :: rest, name => if n = name then rest else (n, c) :: fsRemove rest name

/-- Segment file name chosen by createSSTFile:
`fmt.Sprintf("file_%d.sst", time.Now().Unix())`, a function of the
wall-clock second alone. -/
def sstFileName (t : Nat) : String := "file_" ++ toString t ++ ".sst"

/-- createSSTFile run at wall-clock second `t` against a directory: when a
file is produced it is os.Created under `sstFileName t`, truncating any
existing file of that name. -/
def memDB.createSSTFileAt (mem : memDB) (t : Nat) (fs : FS) : memDB × FS :=
  match mem.createSSTFile with
  | (mem1, none) => (mem1, fs)
  | (mem1, some bytes) => (mem1, fsSet fs (sstFileName t) bytes)

/-- Trailing-carriage-return strip of bufio.ScanLines. -/
def dropCR (l : List Nat) : List Nat :=
  if l.getLast? = some 13 then l.dropLast else l

/-- Worker for `splitLinesGo`: accumulates the current line (reversed). -/
def splitLinesAux : List Nat → List Nat → List (List Nat)
  | cur, [] => [dropCR cur.reverse]
  | cur, 10 :: rest =>
    dropCR cur.reverse :: (if rest.isEmpty then [] else splitLinesAux [] rest)
  | cur, c :: rest => splitLinesAux (c :: cur) rest

/-- Lines produced by a bufio.Scanner with the default ScanLines split over
the given file bytes: split on newline, strip a trailing carriage return,
no empty final token after a trailing newline, no token at all for an empty
file. -/
def splitLinesGo (bs : List Nat) : List (List Nat) :=
  if bs.isEmpty then [] else splitLinesAux [] bs

/-- Strip the exact byte sequence `pat` from the front of `r`, or fail. -/
def stripLead : List Nat → List Nat → Option (List Nat)
  | [], rest => some rest
  | _ :: _, [] => none
  | p :: ps, r :: rs => if p = r then stripLead ps rs else none

/-- Consume bytes up to and including the next double-quote (byte 34),
returning the content before it and the remainder after it. -/
def readQuoted : List Nat → Option (List Nat × List Nat)
  | [] => none
  | 34 :: rest => some ([], rest)
  | c :: rest =>
    match readQuoted rest with
    | none => none
    | some (s, r) => some (c :: s, r)

/-- Value of one standard-base64 alphabet character. -/
def b64Val (c : Nat) : Option Nat :=
  if 65 ≤ c ∧ c ≤ 90 then some (c - 65)
  else if 97 ≤ c ∧ c ≤ 122 then some (c - 97 + 26)
  else if 48 ≤ c ∧ c ≤ 57 then some (c - 48 + 52)
  else if c = 43 then some 62
  else if c = 47 then some 63
  else none

/-- Standard base64 decoding of a padded character sequence (how
encoding/json decodes a JSON string into a Go `[]byte` field). -/
def b64DecodeGroups : List Nat → Option (List Nat)
  | [] => some []
  | c1 :: c2 :: c3 :: c4 :: rest =>
    match b64Val c1, b64Val c2 with
    | some v1, some v2 =>
      if c3 = 61 ∧ c4 = 61 then
        if rest.isEmpty then some [v1 * 4 + v2 / 16] else none
      else if c4 = 61 then
        match b64Val c3 with
        | some v3 =>
          if rest.isEmpty then some [v1 * 4 + v2 / 16, v2 % 16 * 16 + v3 / 4] else none
        | none => none
      else
        match b64Val c3, b64Val c4 with
        | some v3, some v4 =>
          match b64DecodeGroups rest with
          | some bs => some ([v1 * 4 + v2 / 16, v2 % 16 * 16 + v3 / 4, v3 % 4 * 64 + v4] ++ bs)
          | none => none
        | _, _ => none
    | _, _ => none
  | _ => none

/-- Greedy decimal digit scan: `(value so far, rest)`. -/
def readDigitsAux : List Nat → Nat → Nat × List Nat
  | [], acc => (acc, [])
  | c :: rest, acc =>
    if 48 ≤ c ∧ c ≤ 57 then readDigitsAux rest (acc * 10 + (c - 48)) else (acc, c :: rest)

/-- Read at least one decimal digit from the front of the bytes. -/
def readNatDigits : List Nat → Option (Nat × List Nat)
  | [] => none
  | c :: rest =>
    if 48 ≤ c ∧ c ≤ 57 then some (readDigitsAux rest (c - 48)) else none

/-- Decode the numeric Operation field: only the two values the Go type
defines are representable here. -/
def opFromNat : Nat → Option Operation
  | 0 => some .set
  | 1 => some .delete
  | _ => none

/-- Model of `json.Unmarshal(line, &keyValue)` in mergeSSTFiles, restricted
to the canonical serialization of a KeyValue:
left brace, "Key": base64 string, "Value": base64 string, "Operation":
decimal, right brace, with no whitespace.  Go's decoder accepts more JSON
shapes (reordered fields, whitespace, escapes); on every input appearing in
the theorems below the two agree: canonical lines decode to the same record,
and lines that do not start a JSON value (first byte neither a brace nor any
other JSON token opener — e.g. the binary segment bytes and the literal
garbage used below) make both fail. -/
def jsonUnmarshalKV (line : List Nat) : Option KeyValue :=
  match stripLead [123, 34, 75, 101, 121, 34, 58, 34] line with
  | none => none
  | some r1 =>
    match readQuoted r1 with
    | none => none
    | some (kb64, r2) =>
      match stripLead [44, 34, 86, 97, 108, 117, 101, 34, 58, 34] r2 with
      | none => none
      | some r3 =>
        match readQuoted r3 with
        | none => none
        | some (vb64, r4) =>
          match stripLead [44, 34, 79, 112, 101, 114, 97, 116, 105, 111, 110, 34, 58] r4 with
          | none => none
          | some r5 =>
            match readNatDigits r5 with
            | none => none
            | some (opN, r6) =>
              if r6 = [125] then
                match b64DecodeGroups kb64, b64DecodeGroups vb64, opFromNat opN with
                | some k, some v, some op => some ⟨k, v, op⟩
                | _, _, _ => none
              else none

/-- `mergedData[string(keyValue.Key)] = string(keyValue.Value)` on a Go map:
update the value of an existing key or add a new binding.  Go map iteration
order is unspecified; this model fixes first-insertion order, and no theorem
below depends on that order. -/
def assocUpdate : List (List Nat × List Nat) → List Nat → List Nat → List (List Nat × List Nat)
  | [], k, v => [(k, v)]
  | (k0, v0) :: rest, k, v =>
    if k0 = k then (k0, v) :: rest else (k0, v0) :: assocUpdate rest k v

/-- The scan loop of mergeSSTFiles over one input file's lines: JSON-decode
each line into a KeyValue, folding it into the merged map; fail on the first
undecodable line (the Operation field of a decoded record is dropped). -/
def mergeLines : List (List Nat) → List (List Nat × List Nat) →
    Option (List (List Nat × List Nat))
  | [], m => some m
  | l :: ls, m =>
    match jsonUnmarshalKV l with
    | none => none
    | some kv => mergeLines ls (assocUpdate m kv.key kv.value)

/-- The per-input-file loop of mergeSSTFiles: open each named file
(propagating an open failure), scan and decode its lines (propagating a
decode failure), and — still inside the loop, before any merged output has
been written — os.Remove the input file. -/
def mergeFilesGo : List String → FS → List (List Nat × List Nat) →
    FS × Except DbError (List (List Nat × List Nat))
  | [], fs, m => (fs, Except.ok m)
  | name :: rest, fs, m =>
    match fsLookup fs name with
    | none => (fs, Except.error DbError.fileNotFound)
    | some content =>
      match mergeLines (splitLinesGo content) m with
      | none => (fs, Except.error DbError.jsonError)
      | some m1 => mergeFilesGo rest (fsRemove fs name) m1

/-- Byte encoding of the merged map written to the output file:
`keyLen:u32-LE, key, valueLen:u32-LE, value` per binding, no header and no
checksum. -/
def encodeMerged (m : List (List Nat × List Nat)) : List Nat :=
  m.foldl (fun acc p => acc ++ u32le p.1.length ++ p.1 ++ u32le p.2.length ++ p.2) []

/-- mergeSSTFiles from the SST module: os.Create the output file first
(leaving it empty), run the per-file read/decode/remove loop, and only after
every input has been processed and removed write the merged bindings to the
output.  An error part-way leaves the output file empty and every
already-processed input file removed. -/
def mergeSSTFiles (fs : FS) (fileNames : List String) (newFileName : String) :
    FS × Except DbError Unit :=
  let fs0 := fsSet fs newFileName []
  match mergeFilesGo fileNames fs0 [] with
  | (fs1, Except.error e) => (fs1, Except.error e)
  | (fs1, Except.ok m) => (fsSet fs1 newFileName (encodeMerged m), Except.ok ())

/-! Concrete states used by the theorems below.  Keys and values are ASCII
byte lists: 107 = k, 97 = a, 98 = b, 120 = x, 121 = y, 122 = z, etc. -/

/-- WAL handle whose underlying file writes succeed. -/
def walOk : WriteAheadLog := ⟨[], 0, false⟩

/-- WAL handle whose underlying file writes fail (disk fault model). -/
def walBad : WriteAheadLog := ⟨[], 0, true⟩

/-- Freshly constructed memDB (NewMemDB) over the healthy WAL. -/
def memEmpty : memDB := ⟨[], walOk, false, [], []⟩

/-- Freshly constructed memDB over the failing WAL. -/
def memBadWal : memDB := ⟨[], walBad, false, [], []⟩

/-- Key "k". -/
def kC1 : List Nat := [107]

/-- Value "a". -/
def v1C1 : List Nat := [97]

/-- Value "b". -/
def v2C1 : List Nat := [98]

/-- State after set(k,"a") followed by set(k,"b") on a fresh store. -/
def c1DB : memDB := ((memEmpty.Set kC1 v1C1).1.Set kC1 v2C1).1

/-- One entry "ab" maps to "valueXYZ". -/
def c2Entries : List KeyValue := [⟨[97, 98], [118, 97, 108, 117, 101, 88, 89, 90], .set⟩]

/-- Memtable holding `c2Entries`. -/
def c2Mem : memDB := { memEmpty with data := c2Entries }

/-- The 48-byte segment file createSSTFile writes for `c2Entries`. -/
def c2File : List Nat := ((c2Mem.createSSTFile).2).getD []

/-- Canonical JSON line for the record key "k1", value "v1", operation Set,
in ASCII bytes (base64 payloads azE= and djE=). -/
def jsonLineA : List Nat :=
  [123, 34, 75, 101, 121, 34, 58, 34, 97, 122, 69, 61, 34, 44,
   34, 86, 97, 108, 117, 101, 34, 58, 34, 100, 106, 69, 61, 34, 44,
   34, 79, 112, 101, 114, 97, 116, 105, 111, 110, 34, 58, 48, 125]

/-- Directory with a decodable segment a.sst and a second file b.sst whose
single line "xxx" is not a JSON value, so its decode fails. -/
def c3FS : FS := [("a.sst", jsonLineA), ("b.sst", [120, 120, 120])]

/-- Entries of the spec's older segment A: k1 maps to v1, k2 maps to v2. -/
def segAEntries : List KeyValue :=
  [⟨[107, 49], [118, 49], .set⟩, ⟨[107, 50], [118, 50], .set⟩]

/-- Entries of the spec's newer segment B: k2 maps to v3, k3 maps to v4. -/
def segBEntries : List KeyValue :=
  [⟨[107, 50], [118, 51], .set⟩, ⟨[107, 51], [118, 52], .set⟩]

/-- Segment file written by createSSTFile for A's entries. -/
def segA : List Nat := ((({ memEmpty with data := segAEntries }).createSSTFile).2).getD []

/-- Segment file written by createSSTFile for B's entries. -/
def segB : List Nat := ((({ memEmpty with data := segBEntries }).createSSTFile).2).getD []

/-- Directory holding the two real segment files, older first. -/
def c4FS : FS := [("file_1.sst", segA), ("file_2.sst", segB)]

/-- One entry: key "a", value 0x00 0x00 0x00 0x00. -/
def c8Entries : List KeyValue := [⟨[97], [0, 0, 0, 0], .set⟩]

/-- The 43-byte segment file createSSTFile writes for `c8Entries`; its
entries region spans offsets 30..42 and its last four bytes are the four
zero value bytes. -/
def c8File : List Nat := ((({ memEmpty with data := c8Entries }).createSSTFile).2).getD []

/-- Flip one byte of a file: replace the byte at offset `i` by its
bitwise complement. -/
def flipAt (file : List Nat) (i : Nat) : List Nat :=
  writeAt file i [Nat.xor (file.getD i 0) 255]

/-- `c8File` with the payload byte at offset 34 flipped. -/
def c8Flipped : List Nat := flipAt c8File 34

/-- Memtable for the first flush: k1 maps to v1. -/
def c9MemA : memDB := { memEmpty with data := [⟨[107, 49], [118, 49], .set⟩] }

/-- Memtable for the second flush in the same wall-clock second: k2 maps to v2. -/
def c9MemB : memDB := { memEmpty with data := [⟨[107, 50], [118, 50], .set⟩] }

/-- Directory after the first flush at unix second 1700000000. -/
def c9FS1 : FS := (c9MemA.createSSTFileAt 1700000000 []).2

/-- Directory after the second flush at the same unix second. -/
def c9FS2 : FS := (c9MemB.createSSTFileAt 1700000000 c9FS1).2

/-- Live collection holding "x" maps to "y"; no SST loaded yet. -/
def c10Mem : memDB := { memEmpty with data := [⟨[120], [121], .set⟩] }

/-- Key "z", absent from `c10Mem`. -/
def c10Key : List Nat := [122]

/-- A 14-byte file from which loadSSTFile's read loop decodes exactly one
entry (key byte 65, value byte 66) before breaking. -/
def w10File : List Nat := [1, 0, 0, 0, 65, 1, 0, 0, 0, 66, 9, 9, 9, 9]

/-- Claim C1: after set(k,v1) followed by set(k,v2) with no intervening
delete or flush, get(k) is claimed to return v2 (most recent write wins;
set inserts/overwrites).  The code refutes this: Set appends a new entry
without overwriting and Get returns the FIRST matching entry of the scan,
so get(k) returns the older value v1, which differs from v2. -/
theorem set_overwrite_violated :
    (c1DB.Get none kC1).2 = Except.ok v1C1 ∧ v1C1 ≠ v2C1 :=
  ⟨rfl, by decide⟩

/-- Claim C2: writing a list of KeyValue entries as a segment and reading
the segment back into an empty memtable is claimed to yield the same
entries sorted by key.  The code refutes this: createSSTFile writes a
30-byte header and puts the checksum at offset 14, while loadSSTFile parses
entries from offset 0 (reading the magic number as an oversized key length)
and takes the checksum from the last four bytes, so the read of the freshly
written segment decodes nothing and fails with the checksum-mismatch
(CorruptSegment) error instead of returning the entries. -/
theorem sst_roundtrip_fails :
    (c2Mem.createSSTFile).2 = some c2File ∧
    (memEmpty.loadSSTFile (some c2File)).2 = Except.error DbError.checksumMismatch ∧
    ((memEmpty.loadSSTFile (some c2File)).1).data = [] :=
  ⟨rfl, rfl, rfl⟩

/-- Claim C3: compaction is claimed to delete a superseded input segment
only after the merged output is fully written, so an I/O failure during the
merge leaves every source intact.  The code refutes this: mergeSSTFiles
removes each input inside its read loop, before any merged byte is written;
here the first input a.sst decodes and is removed, then the second input
fails to decode, and the merge returns an error with a.sst already deleted
and the output file still empty. -/
theorem merge_deletes_source_before_output :
    (mergeSSTFiles c3FS ["a.sst", "b.sst"] "merged.sst").2 =
      Except.error DbError.jsonError ∧
    fsLookup (mergeSSTFiles c3FS ["a.sst", "b.sst"] "merged.sst").1 "a.sst" = none ∧
    fsLookup (mergeSSTFiles c3FS ["a.sst", "b.sst"] "merged.sst").1 "b.sst" =
      some [120, 120, 120] ∧
    fsLookup (mergeSSTFiles c3FS ["a.sst", "b.sst"] "merged.sst").1 "merged.sst" =
      some [] :=
  ⟨rfl, rfl, rfl, rfl⟩

/-- Claim C4: merging the spec's example segments A = (k1:v1, k2:v2) and
B = (k2:v3, k3:v4) is claimed to yield exactly (k1:v1, k2:v3, k3:v4) sorted
by key.  The code refutes this: mergeSSTFiles reads inputs as JSON lines,
but segment files written by createSSTFile are binary (their first line
starts with the magic-number byte 0x78), so the merge fails on the very
first line of A with a decode error, producing only an empty output file
and no merged entries at all. -/
theorem merge_fails_on_real_segments :
    (mergeSSTFiles c4FS ["file_1.sst", "file_2.sst"] "merged.sst").2 =
      Except.error DbError.jsonError ∧
    fsLookup (mergeSSTFiles c4FS ["file_1.sst", "file_2.sst"] "merged.sst").1
      "file_1.sst" = some segA ∧
    fsLookup (mergeSSTFiles c4FS ["file_1.sst", "file_2.sst"] "merged.sst").1
      "file_2.sst" = some segB ∧
    fsLookup (mergeSSTFiles c4FS ["file_1.sst", "file_2.sst"] "merged.sst").1
      "merged.sst" = some [] :=
  ⟨rfl, rfl, rfl, rfl⟩

/-- Claim C5: set is claimed to fail with IOError whenever the WAL append
fails, acknowledging only journaled writes.  The code refutes this: with a
WAL whose underlying writes fail, AppendEntry does return the I/O error,
but Set discards that return value, still acknowledges the write, and makes
the value visible to Get although nothing reached the log. -/
theorem set_ignores_wal_failure :
    (walBad.AppendEntry .set ⟨kC1, v1C1, .set⟩).2 = Except.error DbError.ioError ∧
    (memBadWal.Set kC1 v1C1).2 = Except.ok () ∧
    (((memBadWal.Set kC1 v1C1).1).Get none kC1).2 = Except.ok v1C1 ∧
    ((memBadWal.Set kC1 v1C1).1).wal.contents = [] :=
  ⟨rfl, rfl, rfl, rfl⟩

/-- Claim C6: get_all is claimed to return entries deduplicated by key with
newest-wins resolution.  The code refutes this: GetAll returns the raw live
list, and after set(k,v1); set(k,v2) that list holds two entries with the
same key k (the older one first). -/
theorem getall_duplicate_keys :
    (c1DB.GetAll).1 = [⟨kC1, v1C1, .set⟩, ⟨kC1, v2C1, .set⟩] ∧
    (c1DB.GetAll).1.map KeyValue.key = [kC1, kC1] :=
  ⟨rfl, rfl⟩

/-- Claim C7: del(k) on a present key is claimed to remove the entry and
return the removed value, after which get(k) fails with KeyNotFound.  The
code refutes the visibility part: after set(k,v1); set(k,v2), Del removes
only the first matching entry (returning v1), and the surviving duplicate
makes the subsequent Get return v2 instead of failing. -/
theorem get_after_del_returns_stale_value :
    (c1DB.Del kC1).2 = Except.ok v1C1 ∧
    (((c1DB.Del kC1).1).Get none kC1).2 = Except.ok v2C1 :=
  ⟨rfl, rfl⟩

/-- Claim C8: flipping any single payload byte of a successfully written
segment is claimed to make the subsequent read fail with CorruptSegment.
The code refutes this: for the segment of `c8Entries` (whose value bytes,
the last four bytes of the file, are zero) the stored checksum that
loadSSTFile reads from the end of the file is 0, and its read loop decodes
no entries, so the recomputed checksum is also 0; flipping the payload byte
at offset 34 (inside the entries region 30..42) leaves both facts intact
and the read SUCCEEDS, returning no data and no error. -/
theorem flipped_segment_read_succeeds :
    (({ memEmpty with data := c8Entries }).createSSTFile).2 = some c8File ∧
    c8File.length = 43 ∧
    c8Flipped ≠ c8File ∧
    c8Flipped.length = c8File.length ∧
    (memEmpty.loadSSTFile (some c8Flipped)).2 = Except.ok () ∧
    ((memEmpty.loadSSTFile (some c8Flipped)).1).data = [] :=
  ⟨rfl, rfl, by decide, rfl, rfl, rfl⟩

/-- Claim C9: two flushes within the same wall-clock second are claimed to
produce two distinct, non-colliding segment files.  The code refutes this:
createSSTFile names the file from time.Now().Unix() alone, so both flushes
at second 1700000000 target file_1700000000.sst and os.Create makes the
second flush truncate the first — the directory ends up with a single
segment file holding only the second flush's bytes. -/
theorem same_second_flushes_collide :
    c9FS2.length = 1 ∧
    c9FS2 = [(sstFileName 1700000000, ((c9MemB.createSSTFile).2).getD [])] :=
  ⟨rfl, rfl⟩

/-- Claim C10 (counterexample): the claim asserts that in EVERY state where
the key misses the live collection and no SST file has been loaded, get
permanently mutates the live collection by appending the decoded file
entries.  In this state — live collection holding only "x", absent key "z",
and the on-disk segment being a genuine createSSTFile output — the read
loop decodes nothing (the magic number parses as an oversized key length),
so get returns with the live collection unchanged. -/
theorem get_frame_counterexample :
    lookupKV c10Mem.data c10Key = none ∧
    c10Mem.sstFileLoaded = false ∧
    ((c10Mem.Get (some c2File) c10Key).1).data = c10Mem.data :=
  ⟨rfl, rfl, rfl⟩

/-- Claim C10 (amended): whenever the requested key is absent from the live
collection, no SST file has been loaded, and the SST file exists (with at
least the four checksum bytes), get runs loadSSTFile and the live
collection afterwards equals the old list extended by exactly the entries
the read loop decodes from the file — a permanent mutation observed by
get_all precisely when at least one entry decodes, and no change at all
when the file decodes to nothing (as every segment written by createSSTFile
does). -/
theorem get_appends_decoded_entries (mem : memDB) (bytes : List Nat) (key : List Nat)
    (h1 : lookupKV mem.data key = none) (h2 : mem.sstFileLoaded = false)
    (h3 : 4 ≤ bytes.length) :
    ((mem.Get (some bytes) key).1).data = mem.data ++ parseEntries bytes := by
  have h4 : ¬ bytes.length < 4 := by omega
  simp only [memDB.Get, memDB.loadSSTFile, h1, h2, Bool.false_eq_true, if_false, if_neg h4]
  by_cases hc :
      calculateChecksum (mem.data ++ parseEntries bytes) =
        leU32 (bytes.drop (bytes.length - 4))
  · simp only [if_pos hc]
    cases hl : lookupKV (mem.data ++ parseEntries bytes) key <;> simp
  · simp only [if_neg hc]

/-- Witness for the amended Claim C10 theorem at a concrete input: the
crafted 14-byte file decodes one entry, and get on the absent key "z" grows
the live collection by exactly that entry. -/
theorem get_appends_decoded_entries_witness :
    lookupKV c10Mem.data c10Key = none ∧
    c10Mem.sstFileLoaded = false ∧
    4 ≤ w10File.length ∧
    ((c10Mem.Get (some w10File) c10Key).1).data = c10Mem.data ++ parseEntries w10File ∧
    parseEntries w10File ≠ [] :=
  ⟨by decide, by decide, by decide,
   get_appends_decoded_entries c10Mem w10File c10Key (by decide) (by decide) (by decide),
   by decide⟩

end GoKV
